import Mathlib

/-!
Verification of the TF1 live-TV plugin (src/src/streamlink/plugins/tf1.py).

The plugin resolves a tf1.fr / tf1info.fr / lci.fr page URL into an HLS manifest
URL, authenticating through a two-stage handshake (session bootstrap GET,
optional credential login POST, token-exchange POST) before the bearer-authorized
media-info GET.  This file gives a shallow embedding of that code: the URL
matcher regex, the channel resolver, the login / auth_check control flow, and
the declarative response schemas, with HTTP modelled as an environment that
supplies the response to each of the four endpoints and every issued request
recorded in an explicit trace.
-/

set_option autoImplicit false

/-- JSON values as seen by the plugin (`res.json()` results and schema inputs).
Numbers are modelled as integers: every numeric field the plugin touches
(`timestamp`, `ttl`, `code`) is integral. -/
inductive JsonVal where
  | null
  | bool (b : Bool)
  | num (n : Int)
  | str (s : String)
  | arr (xs : List JsonVal)
  | obj (kvs : List (String × JsonVal))

/-- Python runtime values, used to record exactly what shape the request body
fields carry (needed to state the consent-ids tuple-vs-list question). -/
inductive PyVal where
  | str (s : String)
  | int (n : Int)
  | list (xs : List PyVal)
  | tuple (xs : List PyVal)

/-- Key lookup in an association list of JSON object members. -/
def lookupPairs : List (String × JsonVal) → String → Option JsonVal
  | [], _ => none
  | (k, v) :: rest, key => if k = key then some v else lookupPairs rest key

/-- Python `dict[key]` on a parsed JSON object: `none` models a `KeyError`
(or indexing a non-object value). -/
def jlookup (j : JsonVal) (key : String) : Option JsonVal :=
  match j with
  | .obj kvs => lookupPairs kvs key
  | _ => none

/-- Python `int(x)` on a JSON value: identity on integers, `bool` is an `int`
subclass, decimal-string parsing for strings; anything else raises `ValueError`
(modelled as `none`). -/
def pyInt : JsonVal → Option Int
  | .num n => some n
  | .bool b => some (if b then 1 else 0)
  | .str s => s.toInt?
  | _ => none

/-! ## URL matcher

The `pluginmatcher` regex (tf1.py lines 23-34), applied as an unanchored
prefix match from the start of the URL:

    https?://(?:www\.)?
    (?:
        tf1\.fr/(?:  (?P<live>[\w-]+)/direct/?  |  stream/(?P<stream>[\w-]+)  )
        |
        (?P<lci>tf1info|lci)\.fr/direct/?
    )

`\w` is modelled as ASCII alphanumeric or underscore. -/

/-- A character matched by the regex class `[\w-]`. -/
def isWordChar (c : Char) : Bool :=
  c.isAlphanum || c == '_' || c == '-'

/-- Longest prefix of `[\w-]` characters and the remainder.  Greedy matching of
`[\w-]+` never backtracks here because the literal following it in the regex
always starts with `/`, which is not a `[\w-]` character. -/
def takeWord : List Char → List Char × List Char
  | [] => ([], [])
  | c :: cs =>
    if isWordChar c then
      let p := takeWord cs
      (c :: p.1, p.2)
    else
      ([], c :: cs)

/-- Match a literal: `dropLit lit cs` returns the remainder of `cs` after the
literal `lit`, or `none` when `cs` does not start with `lit`. -/
def dropLit : List Char → List Char → Option (List Char)
  | [], cs => some cs
  | _ :: _, [] => none
  | l :: ls, c :: cs => if l = c then dropLit ls cs else none

/-- The named capture groups of the plugin matcher.  A group is `none` when its
alternative did not participate in the match (Python `match["..."] is None`). -/
structure MatchResult where
  live : Option String
  lci : Option String
  stream : Option String
deriving DecidableEq

/-- Second alternative inside the `tf1.fr/` branch: `stream/(?P<stream>[\w-]+)`. -/
def tryStream (cs : List Char) : Option MatchResult :=
  match dropLit "stream/".data cs with
  | none => none
  | some rest =>
    match takeWord rest with
    | ([], _) => none
    | (c :: w, _) => some { live := none, lci := none, stream := some (String.mk (c :: w)) }

/-- The path alternation of the `tf1.fr/` branch:
`(?P<live>[\w-]+)/direct/?` tried first, then `stream/(?P<stream>[\w-]+)`.
The trailing `/?` and everything after it are unconstrained (unanchored end). -/
def matchTf1Path (cs : List Char) : Option MatchResult :=
  match takeWord cs with
  | ([], _) => tryStream cs
  | (c :: w, rest) =>
    match dropLit "/direct".data rest with
    | some _ => some { live := some (String.mk (c :: w)), lci := none, stream := none }
    | none => tryStream cs

/-- The second host branch: `(?P<lci>tf1info|lci)\.fr/direct/?`; the group
captures the bare domain word. -/
def matchLci (cs : List Char) : Option MatchResult :=
  match dropLit "tf1info.fr/direct".data cs with
  | some _ => some { live := none, lci := some "tf1info", stream := none }
  | none =>
    match dropLit "lci.fr/direct".data cs with
    | some _ => some { live := none, lci := some "lci", stream := none }
    | none => none

/-- Host alternation: `tf1.fr/...` first, then the LCI branch.  The two host
literals are incompatible at the fourth character, so no backtracking between
the branches is observable. -/
def matchHost (cs : List Char) : Option MatchResult :=
  match dropLit "tf1.fr/".data cs with
  | some rest => matchTf1Path rest
  | none => matchLci cs

/-- `https?://` — the optional `s` is consumed greedily; since the next literal
`://` cannot start with `s`, this agrees with the regex. -/
def matchScheme (cs : List Char) : Option (List Char) :=
  match dropLit "http".data cs with
  | none => none
  | some rest =>
    let rest1 := match dropLit "s".data rest with
      | some r => r
      | none => rest
    dropLit "://".data rest1

/-- The full plugin matcher: `re.match` of the pattern against the URL.
`(?:www\.)?` is consumed greedily; no branch literal starts with `www.`, so
this agrees with the regex. -/
def matchUrl (url : String) : Option MatchResult :=
  match matchScheme url.data with
  | none => none
  | some cs =>
    let cs1 := match dropLit "www.".data cs with
      | some r => r
      | none => cs
    matchHost cs1

/-- How many of the three capture groups are populated. -/
def populatedCount (m : MatchResult) : Nat :=
  (if m.live.isSome then 1 else 0)
    + (if m.lci.isSome then 1 else 0)
    + (if m.stream.isSome then 1 else 0)

/-! ## Channel resolver -/

/-- Python `str.upper()` on the ASCII slugs captured by the matcher, written
as a structural map so concrete instances evaluate by reduction. -/
def pyUpper (s : String) : String :=
  String.mk (s.data.map Char.toUpper)

/-- `TF1._get_channel` (tf1.py lines 62-75): maps the match groups to the
display name and channel id; the final branch raises `PluginError("Invalid
channel")`, modelled as `Except.error`. -/
def _get_channel (m : MatchResult) : Except String (String × String) :=
  match m.live with
  | some channel => .ok (channel, "L_" ++ pyUpper channel)
  | none =>
    match m.lci with
    | some _ => .ok ("LCI", "L_LCI")
    | none =>
      match m.stream with
      | some channel => .ok (channel, "L_FAST_v2l-" ++ channel)
      | none => .error "Invalid channel"

/-! ## Class constants (tf1.py lines 50-59, 127) -/

/-- `TF1._URL_API` with the `channel_id` format hole applied. -/
def _URL_API (channel_id : String) : String :=
  "https://mediainfo.tf1.fr/mediainfocombo/" ++ channel_id

/-- `TF1._TF1_AUTH_URL` ("Necessary for login."). -/
def _TF1_AUTH_URL : String := "https://compte.tf1.fr/accounts.login"

/-- `TF1._GIGYA_TOKEN_URL`. -/
def _GIGYA_TOKEN_URL : String := "https://www.tf1.fr/token/gigya/web"

/-- `TF1.gigya_api_key`. -/
def gigya_api_key : String :=
  "3_hWgJdARhz_7l1oOp3a8BDLoR9cuWZpUaKG4aqF7gum9_iK3uTZ2VlDBl8ANf8FVk"

/-- The 25 consent-identifier strings listed at tf1.py line 127, in source
order. -/
def consentIdStrings : List String :=
  ["1", "2", "3", "4", "10001", "10003", "10005", "10007", "10013", "10015",
   "10017", "10019", "10009", "10011", "13002", "13001", "10004", "10014",
   "10016", "10018", "10020", "10010", "10012", "10006", "10008"]

/-- The value of the local `consent_ids` at tf1.py line 127.  The assignment
there ends in a trailing comma (`consent_ids = [ "1", ... ],`), so the Python
value bound is a one-element tuple containing the list, not the list itself. -/
def consent_ids : PyVal :=
  PyVal.tuple [PyVal.list (consentIdStrings.map PyVal.str)]

/-- Modelled from the spec: the fixed session endpoint.  `self.session_url`
(tf1.py line 157) is not defined in the file under src/; the spec fixes only
that it is a single fixed URL which receives the target URL in the `ptrt`
query parameter. -/
def session_url : String := "https://www.tf1.fr/session"

/-- Modelled from the spec: the identity-provider login endpoint.
`self.auth_url` (tf1.py line 166) is not defined in the file under src/; per
the spec this is the fixed login endpoint, for which the class declares the
constant `_TF1_AUTH_URL`. -/
def auth_url : String := _TF1_AUTH_URL

/-- Modelled from the spec: `useragents.IPHONE`, the fixed mobile-device
user-agent string sent to force HLS delivery; defined outside src/. -/
def IPHONE : String := "mobile-iphone-user-agent"

/-- The message logged by `_get_streams` when no username option is set
(tf1.py lines 179-182; the source concatenates the two string literals). -/
def missingCredentialsMsg : String :=
  "In order to access your content, TF1 requires an account you must login with, using "
    ++ "--tf1-username and --tf1-password"

/-- The message logged by `_get_streams` when `login` returns `False`
(tf1.py lines 185-186). -/
def authFailedMsg : String :=
  "Could not authenticate, check your username and password."

/-! ## HTTP model

The spec scopes generic HTTP transport out of this core ("generic HTTP client
plumbing ... is an external collaborator and out of scope"), so each
`session.http.get/post` is modelled as reading a response value from an
environment, and the request that the plugin builds is recorded in a trace.
Response-schema validation, which the spec keeps in scope, is modelled
explicitly below. -/

/-- An HTTP response as the plugin observes it: status code, the JSON value of
the body (`none` when the body is not parseable JSON), and the final URL after
redirects (`res.url`). -/
structure HttpResponse where
  status_code : Nat
  jsonBody : Option JsonVal
  finalUrl : String

/-- One resolution's environment: the response each endpoint would return. -/
structure Env where
  sessionResp : HttpResponse
  loginResp : HttpResponse
  tokenResp : HttpResponse
  mediaResp : HttpResponse

/-- The username / password plugin options (`self.get_option`), `none` when
unset. -/
structure PluginOptions where
  username : Option String
  password : Option String
deriving DecidableEq

/-- Python truthiness of an optional string option: `None` and `""` are falsy. -/
def truthy : Option String → Bool
  | none => false
  | some s => !(s == "")

/-- The mutable instance fields of `TF1` (tf1.py lines 56-59).  `user_timestamp`
holds a JSON value because it is initialised to the string `""` and overwritten
with an `int`. -/
structure PluginState where
  user_signature : JsonVal
  user_uid : JsonVal
  user_timestamp : JsonVal
  user_token : String

/-- The instance-field values at class initialisation (tf1.py lines 56-59). -/
def initState : PluginState :=
  { user_signature := .str "", user_uid := .str "", user_timestamp := .str "", user_token := "" }

/-- A request issued by the plugin, with the data the source puts in it. -/
inductive Request where
  | sessionGet (url ptrt : String)
  | loginPost (url query : String) (loginID password : Option String) (apiKey : String)
  | tokenPost (url : String) (uid signature : JsonVal) (timestamp : Int)
      (consentIds : PyVal) (referer : String)
  | mediaGet (url context pver : String) (authorization userAgent : String)

/-- Whether a request is the credential login POST. -/
def isLoginPost : Request → Bool
  | .loginPost _ _ _ _ _ => true
  | _ => false

/-- Whether a request is the media-info GET. -/
def isMediaGet : Request → Bool
  | .mediaGet _ _ _ _ _ => true
  | _ => false

/-- Exceptions the plugin flow can raise: `res.json()` on a non-JSON body,
`KeyError` on a missing dict key, `ValueError` from `int(...)`, a streamlink
schema-validation failure, and `PluginError`. -/
inductive PyErr where
  | jsonError
  | keyError (key : String)
  | valueError
  | schemaError
  | pluginError (msg : String)
deriving DecidableEq

/-- What `_get_streams` produces: either no streams together with the
`log.error` message, or the manifest URL handed to
`HLSStream.parse_variant_playlist`. -/
inductive Outcome where
  | noStreams (logMsg : String)
  | streams (manifestUrl : String)
deriving DecidableEq

/-- `urlparse(u).query`: the part of the URL after the first `?` of the
pre-fragment portion. -/
def urlQuery (u : String) : String :=
  let beforeFrag := u.data.takeWhile (fun c => c ≠ '#')
  match beforeFrag.dropWhile (fun c => c ≠ '?') with
  | [] => ""
  | _ :: rest => String.mk rest

/-! ## Response schemas (streamlink `validate.Schema` expressions in src) -/

/-- The validated token-exchange response (tf1.py lines 140-148). -/
structure TokenResponse where
  token : String
  refresh_token : String
  ttl : Int
  type : String
deriving DecidableEq

/-- The token-exchange schema (tf1.py lines 140-148): a JSON object with the
four required members `token : str`, `refresh_token : str`, `ttl : int`,
`type : str`; extra members are ignored, a missing or ill-typed member is a
validation failure (`none`). -/
def validateTokenSchema (j : JsonVal) : Option TokenResponse :=
  match jlookup j "token", jlookup j "refresh_token", jlookup j "ttl", jlookup j "type" with
  | some (.str t), some (.str r), some (.num n), some (.str ty) =>
    some { token := t, refresh_token := r, ttl := n, type := ty }
  | _, _, _, _ => none

/-- Scans for the first `://` separator; the accumulator holds the characters
already passed over, so the check is: nonempty scheme and nonempty remainder. -/
def validUrlAux : List Char → List Char → Bool
  | acc, ':' :: '/' :: '/' :: rest => !acc.isEmpty && !rest.isEmpty
  | acc, c :: rest => validUrlAux (c :: acc) rest
  | _, [] => false

/-- `validate.url()` approximated: a nonempty scheme, `://`, and a nonempty
remainder.  No claim depends on finer URL validity. -/
def validUrl (s : String) : Bool :=
  validUrlAux [] s.data

/-- First branch of the delivery union (tf1.py lines 93-100):
`{code: 200, format: "hls", url: validate.url()}` followed by
`union_get("code", "url")`. -/
def deliverySuccess (d : JsonVal) : Option (Int × String) :=
  match jlookup d "code", jlookup d "format", jlookup d "url" with
  | some (.num 200), some (.str "hls"), some (.str u) =>
    if validUrl u then some (200, u) else none
  | _, _, _ => none

/-- Second branch of the delivery union (tf1.py lines 101-107):
`{code: int, error: str}` followed by `union_get("code", "error")`. -/
def deliveryFailure (d : JsonVal) : Option (Int × String) :=
  match jlookup d "code", jlookup d "error" with
  | some (.num c), some (.str e) => some (c, e)
  | _, _ => none

/-- The media-info response schema (tf1.py lines 89-111): parse JSON, require a
`delivery` member, validate it against the union (first branch tried first),
and return the extracted pair. -/
def validateApiBody (body : JsonVal) : Option (Int × String) :=
  match jlookup body "delivery" with
  | none => none
  | some d =>
    match deliverySuccess d with
    | some r => some r
    | none => deliveryFailure d

/-! ## Control flow -/

/-- `auth_check` (tf1.py lines 124-153of `login`): on a 200 response, read the
assertion fields out of the body (raising on a non-JSON body, a missing key, or
an unconvertible timestamp), issue the token-exchange POST carrying
`consent_ids`, validate its response against the token schema (a failure is a
hard schema error), store the token and return `True`; on any other status
return `False`.  The returned list is the trace of requests issued. -/
def auth_check (env : Env) (selfUrl : String) (st : PluginState) (res : HttpResponse) :
    List Request × Except PyErr (Bool × PluginState) :=
  if res.status_code = 200 then
    match res.jsonBody with
    | none => ([], .error .jsonError)
    | some body =>
      match jlookup body "userSignature" with
      | none => ([], .error (.keyError "userSignature"))
      | some sig =>
        match jlookup body "UID" with
        | none => ([], .error (.keyError "UID"))
        | some uid =>
          match jlookup body "timestamp" with
          | none => ([], .error (.keyError "timestamp"))
          | some tsJ =>
            match pyInt tsJ with
            | none => ([], .error .valueError)
            | some ts =>
              let st1 : PluginState :=
                { st with user_signature := sig, user_uid := uid, user_timestamp := .num ts }
              let req := Request.tokenPost _GIGYA_TOKEN_URL uid sig ts consent_ids selfUrl
              match env.tokenResp.jsonBody with
              | none => ([req], .error .schemaError)
              | some tokenBody =>
                match validateTokenSchema tokenBody with
                | none => ([req], .error .schemaError)
                | some tok => ([req], .ok (true, { st1 with user_token := tok.token }))
  else
    ([], .ok (false, st))

/-- `TF1.login` (tf1.py lines 114-175): GET the session endpoint with
`ptrt=<ptrt_url>`; if `auth_check` accepts that response, return `True`
without a login POST; otherwise POST the credentials to the login endpoint,
forwarding the query string of the session response's final URL, and run
`auth_check` on the login response. -/
def login (env : Env) (opts : PluginOptions) (selfUrl : String) (st : PluginState)
    (ptrt_url : String) : List Request × Except PyErr (Bool × PluginState) :=
  let bootReq := Request.sessionGet session_url ptrt_url
  let first := auth_check env selfUrl st env.sessionResp
  match first.2 with
  | .error e => (bootReq :: first.1, .error e)
  | .ok (true, st1) => (bootReq :: first.1, .ok (true, st1))
  | .ok (false, st1) =>
    let loginReq := Request.loginPost auth_url (urlQuery env.sessionResp.finalUrl)
      opts.username opts.password gigya_api_key
    let second := auth_check env selfUrl st1 env.loginResp
    (bootReq :: first.1 ++ loginReq :: second.1, second.2)

/-- `TF1._api_call` (tf1.py lines 77-112): GET the media-info endpoint for the
channel id with the fixed query parameters, the iPhone user-agent and the
bearer token, and validate the response body against the delivery schema
(a failure is a hard schema error). -/
def _api_call (env : Env) (channel_id : String) (st : PluginState) :
    List Request × Except PyErr (Int × String) :=
  let req := Request.mediaGet (_URL_API channel_id) "MYTF1" "5015000"
    ("Bearer " ++ st.user_token) IPHONE
  match env.mediaResp.jsonBody with
  | none => ([req], .error .schemaError)
  | some body =>
    match validateApiBody body with
    | none => ([req], .error .schemaError)
    | some cd => ([req], .ok cd)

/-- `TF1._get_streams` (tf1.py lines 177-197): report missing credentials when
the username option is unset (no request issued); run `login` with the page URL
as the snapback URL and report an authentication failure when it returns
`False`; resolve the channel, call the media-info API, and either report the
delivery error (`code != 200`) or hand the manifest URL to the HLS parser. -/
def _get_streams (env : Env) (opts : PluginOptions) (m : MatchResult) (selfUrl : String) :
    List Request × Except PyErr Outcome :=
  if truthy opts.username = false then
    ([], .ok (.noStreams missingCredentialsMsg))
  else
    let lr := login env opts selfUrl initState selfUrl
    match lr.2 with
    | .error e => (lr.1, .error e)
    | .ok (false, _) => (lr.1, .ok (.noStreams authFailedMsg))
    | .ok (true, st) =>
      match _get_channel m with
      | .error msg => (lr.1, .error (.pluginError msg))
      | .ok (_, channel_id) =>
        let ar := _api_call env channel_id st
        match ar.2 with
        | .error e => (lr.1 ++ ar.1, .error e)
        | .ok (code, data) =>
          if code ≠ 200 then (lr.1 ++ ar.1, .ok (.noStreams data))
          else (lr.1 ++ ar.1, .ok (.streams data))

/-! ## Shape of the matcher's output -/

/-- Every successful `tryStream` populates exactly the `stream` group. -/
theorem tryStream_shape (cs : List Char) (m : MatchResult) (h : tryStream cs = some m) :
    ∃ s, m = { live := none, lci := none, stream := some s } := by
  unfold tryStream at h
  repeat' split at h
  all_goals cases h
  exact ⟨_, rfl⟩

/-- Every successful `matchTf1Path` populates exactly the `live` group or
exactly the `stream` group. -/
theorem matchTf1Path_shape (cs : List Char) (m : MatchResult) (h : matchTf1Path cs = some m) :
    (∃ s, m = { live := some s, lci := none, stream := none }) ∨
    (∃ s, m = { live := none, lci := none, stream := some s }) := by
  unfold matchTf1Path at h
  split at h
  · exact Or.inr (tryStream_shape _ _ h)
  · split at h
    · cases h
      exact Or.inl ⟨_, rfl⟩
    · exact Or.inr (tryStream_shape _ _ h)

/-- Every successful `matchLci` populates exactly the `lci` group. -/
theorem matchLci_shape (cs : List Char) (m : MatchResult) (h : matchLci cs = some m) :
    ∃ s, m = { live := none, lci := some s, stream := none } := by
  unfold matchLci at h
  repeat' split at h
  all_goals cases h
  · exact ⟨_, rfl⟩
  · exact ⟨_, rfl⟩

/-- Every match populates exactly one of the three groups. -/
theorem matchUrl_shape (url : String) (m : MatchResult) (h : matchUrl url = some m) :
    (∃ s, m = { live := some s, lci := none, stream := none }) ∨
    (∃ s, m = { live := none, lci := some s, stream := none }) ∨
    (∃ s, m = { live := none, lci := none, stream := some s }) := by
  unfold matchUrl at h
  split at h
  · cases h
  · rw [matchHost] at h
    split at h
    · rcases matchTf1Path_shape _ _ h with h1 | h1
      · exact Or.inl h1
      · exact Or.inr (Or.inr h1)
    · exact Or.inr (Or.inl (matchLci_shape _ _ h))

/-! ## Claims C1 and C9 -/

/-- Claim C1: for every URL matched by the plugin, channel resolution follows
the three derivation rules exactly: a live slug `s` yields id `"L_" ++ upper s`
with display name `s`; the LCI alias yields display name `"LCI"` and fixed id
`"L_LCI"`; a stream slug `s` yields id `"L_FAST_v2l-" ++ s` with the slug's
case preserved. -/
theorem claim_C1_channel_resolution (url : String) (m : MatchResult)
    (h : matchUrl url = some m) :
    (∀ s, m.live = some s → _get_channel m = .ok (s, "L_" ++ pyUpper s))
    ∧ (∀ s, m.lci = some s → _get_channel m = .ok ("LCI", "L_LCI"))
    ∧ (∀ s, m.stream = some s → _get_channel m = .ok (s, "L_FAST_v2l-" ++ s)) := by
  rcases matchUrl_shape url m h with ⟨s, rfl⟩ | ⟨s, rfl⟩ | ⟨s, rfl⟩ <;>
    refine ⟨?_, ?_, ?_⟩ <;> intro t ht <;> simp_all [_get_channel]

/-- Witness for C1 on the three concrete URL forms of the spec: the live slug
`tf1`, the LCI alias, and the stream slug `sport1`. -/
theorem claim_C1_witness :
    (matchUrl "https://www.tf1.fr/tf1/direct" = some ⟨some "tf1", none, none⟩
      ∧ _get_channel ⟨some "tf1", none, none⟩ = .ok ("tf1", "L_TF1"))
    ∧ (matchUrl "https://lci.fr/direct" = some ⟨none, some "lci", none⟩
      ∧ _get_channel ⟨none, some "lci", none⟩ = .ok ("LCI", "L_LCI"))
    ∧ (matchUrl "https://www.tf1.fr/stream/sport1" = some ⟨none, none, some "sport1"⟩
      ∧ _get_channel ⟨none, none, some "sport1"⟩ = .ok ("sport1", "L_FAST_v2l-sport1")) :=
  ⟨⟨rfl, by
      have h := (claim_C1_channel_resolution "https://www.tf1.fr/tf1/direct"
        ⟨some "tf1", none, none⟩ (by rfl)).1 "tf1" rfl
      simpa using h⟩,
   ⟨rfl, (claim_C1_channel_resolution "https://lci.fr/direct"
        ⟨none, some "lci", none⟩ (by rfl)).2.1 "lci" rfl⟩,
   ⟨rfl, (claim_C1_channel_resolution "https://www.tf1.fr/stream/sport1"
        ⟨none, none, some "sport1"⟩ (by rfl)).2.2 "sport1" rfl⟩⟩

/-- Claim C9: for every URL accepted by the matcher, exactly one of the three
address schemes is populated, so exactly one channel-id derivation path is
taken and the internal-invariant branch (`PluginError "Invalid channel"`) is
unreachable. -/
theorem claim_C9_exclusive_schemes (url : String) (m : MatchResult)
    (h : matchUrl url = some m) :
    populatedCount m = 1 ∧ ∃ p, _get_channel m = .ok p := by
  rcases matchUrl_shape url m h with ⟨s, rfl⟩ | ⟨s, rfl⟩ | ⟨s, rfl⟩ <;>
    exact ⟨rfl, ⟨_, rfl⟩⟩

/-- Witness for C9 at the concrete URL `https://www.tf1.fr/tf1/direct`. -/
theorem claim_C9_witness :
    populatedCount ⟨some "tf1", none, none⟩ = 1
    ∧ ∃ p, _get_channel (⟨some "tf1", none, none⟩ : MatchResult) = .ok p :=
  claim_C9_exclusive_schemes "https://www.tf1.fr/tf1/direct" ⟨some "tf1", none, none⟩ (by rfl)

/-! ## Behaviour of auth_check -/

/-- On a non-200 response, `auth_check` issues no request and returns `False`
with the state untouched. -/
theorem auth_check_not200 (env : Env) (selfUrl : String) (st : PluginState)
    (res : HttpResponse) (h : res.status_code ≠ 200) :
    auth_check env selfUrl st res = ([], .ok (false, st)) := by
  unfold auth_check
  simp [h]

/-- On a 200 response whose body parses to the three assertion fields,
`auth_check` issues exactly the token-exchange POST and never returns `False`. -/
theorem auth_check_assertion (env : Env) (selfUrl : String) (st : PluginState)
    (res : HttpResponse) (body sig uid tsJ : JsonVal) (ts : Int)
    (h200 : res.status_code = 200) (hb : res.jsonBody = some body)
    (hsig : jlookup body "userSignature" = some sig)
    (huid : jlookup body "UID" = some uid)
    (hts : jlookup body "timestamp" = some tsJ)
    (hint : pyInt tsJ = some ts) :
    (auth_check env selfUrl st res).1
      = [Request.tokenPost _GIGYA_TOKEN_URL uid sig ts consent_ids selfUrl]
    ∧ ∀ st1, (auth_check env selfUrl st res).2 ≠ .ok (false, st1) := by
  unfold auth_check
  simp only [h200, hb, hsig, huid, hts, hint, if_pos]
  cases htb : env.tokenResp.jsonBody with
  | none => simp [htb]
  | some tb =>
    cases hv : validateTokenSchema tb with
    | none => simp [htb, hv]
    | some tok => simp [htb, hv]

/-- On a 200 response with a parseable assertion and a token response passing
the schema, `auth_check` succeeds and the resulting state is fully determined
by the assertion and the token. -/
theorem auth_check_success (env : Env) (selfUrl : String) (st : PluginState)
    (res : HttpResponse) (body sig uid tsJ : JsonVal) (ts : Int)
    (tb : JsonVal) (tok : TokenResponse)
    (h200 : res.status_code = 200) (hb : res.jsonBody = some body)
    (hsig : jlookup body "userSignature" = some sig)
    (huid : jlookup body "UID" = some uid)
    (hts : jlookup body "timestamp" = some tsJ)
    (hint : pyInt tsJ = some ts)
    (htb : env.tokenResp.jsonBody = some tb)
    (htok : validateTokenSchema tb = some tok) :
    auth_check env selfUrl st res
      = ([Request.tokenPost _GIGYA_TOKEN_URL uid sig ts consent_ids selfUrl],
         .ok (true,
           { user_signature := sig, user_uid := uid,
             user_timestamp := .num ts, user_token := tok.token })) := by
  unfold auth_check
  simp [h200, hb, hsig, huid, hts, hint, htb, htok]

/-- On a 200 response whose body is not JSON or lacks one of the assertion
keys, `auth_check` raises (a JSON or key error) before issuing any request. -/
theorem auth_check_abort (env : Env) (selfUrl : String) (st : PluginState)
    (res : HttpResponse) (h200 : res.status_code = 200)
    (hbad : res.jsonBody = none
      ∨ ∃ body, res.jsonBody = some body
          ∧ (jlookup body "userSignature" = none
             ∨ jlookup body "UID" = none
             ∨ jlookup body "timestamp" = none)) :
    ∃ e, auth_check env selfUrl st res = ([], .error e)
        ∧ (e = .jsonError ∨ ∃ k, e = .keyError k) := by
  rcases hbad with hb | ⟨body, hb, hmiss⟩
  · exact ⟨.jsonError, by simp [auth_check, h200, hb], Or.inl rfl⟩
  · rcases hmiss with hk | hk | hk
    · exact ⟨.keyError "userSignature", by simp [auth_check, h200, hb, hk], Or.inr ⟨_, rfl⟩⟩
    · cases hsig : jlookup body "userSignature" with
      | none =>
        exact ⟨.keyError "userSignature", by simp [auth_check, h200, hb, hsig], Or.inr ⟨_, rfl⟩⟩
      | some sig =>
        exact ⟨.keyError "UID", by simp [auth_check, h200, hb, hsig, hk], Or.inr ⟨_, rfl⟩⟩
    · cases hsig : jlookup body "userSignature" with
      | none =>
        exact ⟨.keyError "userSignature", by simp [auth_check, h200, hb, hsig], Or.inr ⟨_, rfl⟩⟩
      | some sig =>
        cases huid : jlookup body "UID" with
        | none =>
          exact ⟨.keyError "UID", by simp [auth_check, h200, hb, hsig, huid], Or.inr ⟨_, rfl⟩⟩
        | some uid =>
          exact ⟨.keyError "timestamp", by simp [auth_check, h200, hb, hsig, huid, hk],
            Or.inr ⟨_, rfl⟩⟩

/-! ## Behaviour of login -/

/-- The session-bootstrap GET with `ptrt=<ptrt_url>` is always the first
request `login` issues. -/
theorem login_first_request (env : Env) (opts : PluginOptions) (selfUrl : String)
    (st : PluginState) (ptrt_url : String) :
    ∃ rest, (login env opts selfUrl st ptrt_url).1
      = Request.sessionGet session_url ptrt_url :: rest := by
  simp only [login]
  split
  · exact ⟨_, rfl⟩
  · exact ⟨_, rfl⟩
  · exact ⟨_, rfl⟩

/-- The media-info GET is the only request `_api_call` issues, and it carries
the bearer token of the current state. -/
theorem _api_call_trace (env : Env) (channel_id : String) (st : PluginState) :
    (_api_call env channel_id st).1
      = [Request.mediaGet (_URL_API channel_id) "MYTF1" "5015000"
          ("Bearer " ++ st.user_token) IPHONE] := by
  unfold _api_call
  split
  · rfl
  · split <;> rfl

/-! ## Claim C2 -/

/-- Claim C2: whenever a resolution reaches authentication (the username option
is set), the first HTTP request issued is the GET of the fixed session endpoint
carrying the original target URL as the `ptrt` query parameter. -/
theorem claim_C2_session_get_first (env : Env) (opts : PluginOptions) (m : MatchResult)
    (url : String) (h : truthy opts.username = true) :
    ∃ rest, (_get_streams env opts m url).1
      = Request.sessionGet session_url url :: rest := by
  obtain ⟨rest, hrest⟩ := login_first_request env opts url initState url
  simp only [_get_streams, h, Bool.true_eq_false, if_false]
  split
  · exact ⟨rest, hrest⟩
  · exact ⟨rest, hrest⟩
  · split
    · exact ⟨rest, hrest⟩
    · split
      · exact ⟨_, by rw [hrest]; rfl⟩
      · split
        · exact ⟨_, by rw [hrest]; rfl⟩
        · exact ⟨_, by rw [hrest]; rfl⟩

/-- Witness for C2: with credentials set, the resolution of the live URL opens
with the session GET carrying that URL as `ptrt`. -/
def c2env : Env :=
  { sessionResp := ⟨500, none, ""⟩, loginResp := ⟨500, none, ""⟩,
    tokenResp := ⟨500, none, ""⟩, mediaResp := ⟨500, none, ""⟩ }

/-- Witness for C2 at a concrete environment, options and URL. -/
theorem claim_C2_witness :
    ∃ rest, (_get_streams c2env ⟨some "alice", some "pw"⟩ ⟨some "tf1", none, none⟩
        "https://www.tf1.fr/tf1/direct").1
      = Request.sessionGet session_url "https://www.tf1.fr/tf1/direct" :: rest :=
  claim_C2_session_get_first c2env ⟨some "alice", some "pw"⟩ ⟨some "tf1", none, none⟩
    "https://www.tf1.fr/tf1/direct" (by rfl)

/-! ## Claim C4 -/

/-- When the session response is HTTP 200 with a parseable assertion, `login`
issues exactly the session GET followed by the token-exchange POST — no login
POST — and never returns `False`. -/
theorem login_skips_post (env : Env) (opts : PluginOptions) (selfUrl : String)
    (st : PluginState) (ptrt_url : String) (body sig uid tsJ : JsonVal) (ts : Int)
    (h200 : env.sessionResp.status_code = 200)
    (hb : env.sessionResp.jsonBody = some body)
    (hsig : jlookup body "userSignature" = some sig)
    (huid : jlookup body "UID" = some uid)
    (hts : jlookup body "timestamp" = some tsJ)
    (hint : pyInt tsJ = some ts) :
    (login env opts selfUrl st ptrt_url).1
      = [Request.sessionGet session_url ptrt_url,
         Request.tokenPost _GIGYA_TOKEN_URL uid sig ts consent_ids selfUrl]
    ∧ ∀ st1, (login env opts selfUrl st ptrt_url).2 ≠ .ok (false, st1) := by
  obtain ⟨h1, h2⟩ := auth_check_assertion env selfUrl st env.sessionResp
    body sig uid tsJ ts h200 hb hsig huid hts hint
  simp only [login]
  split
  · next e heq => simp [h1]
  · next st1 heq => simp [h1]
  · next st1 heq => exact absurd heq (h2 st1)

/-- Claim C4: if the session-bootstrap GET returns HTTP 200 and its body
contains a parseable assertion (signature, user id, integer-convertible
timestamp), the credential login POST is never issued and the flow proceeds
directly from the session GET to the token-exchange POST. -/
theorem claim_C4_skip_login (env : Env) (opts : PluginOptions) (m : MatchResult)
    (url : String) (body sig uid tsJ : JsonVal) (ts : Int)
    (h : truthy opts.username = true)
    (h200 : env.sessionResp.status_code = 200)
    (hb : env.sessionResp.jsonBody = some body)
    (hsig : jlookup body "userSignature" = some sig)
    (huid : jlookup body "UID" = some uid)
    (hts : jlookup body "timestamp" = some tsJ)
    (hint : pyInt tsJ = some ts) :
    (∀ r ∈ (_get_streams env opts m url).1, isLoginPost r = false)
    ∧ ∃ rest, (_get_streams env opts m url).1
        = Request.sessionGet session_url url
          :: Request.tokenPost _GIGYA_TOKEN_URL uid sig ts consent_ids url :: rest := by
  obtain ⟨h1, h2⟩ := login_skips_post env opts url initState url body sig uid tsJ ts
    h200 hb hsig huid hts hint
  simp only [_get_streams, h, Bool.true_eq_false, if_false]
  split
  next e heq =>
    rw [h1]
    exact ⟨by simp [isLoginPost], [], rfl⟩
  next st1 heq => exact absurd heq (h2 st1)
  next st1 heq =>
    split
    next msg hch =>
      rw [h1]
      exact ⟨by simp [isLoginPost], [], rfl⟩
    next a cid hch =>
      have hm := _api_call_trace env cid st1
      split
      next e2 heq2 =>
        rw [h1, hm]
        exact ⟨by simp [isLoginPost], _, rfl⟩
      next code data heq2 =>
        split
        all_goals rw [h1, hm]
        all_goals exact ⟨by simp [isLoginPost], _, rfl⟩

/-- Witness for C4: session response already authenticated; the trace is the
session GET followed immediately by the token POST, with no login POST. -/
def c4env : Env :=
  { sessionResp := ⟨200,
      some (.obj [("userSignature", .str "sig"), ("UID", .str "uid0"), ("timestamp", .num 17)]),
      "https://www.tf1.fr/session?x=1"⟩,
    loginResp := ⟨500, none, ""⟩,
    tokenResp := ⟨200,
      some (.obj [("token", .str "tok"), ("refresh_token", .str "ref"),
                  ("ttl", .num 3600), ("type", .str "Bearer")]), ""⟩,
    mediaResp := ⟨200,
      some (.obj [("delivery",
        .obj [("code", .num 200), ("format", .str "hls"),
              ("url", .str "https://cdn.example.test/master.m3u8")])]), ""⟩ }

/-- Witness for C4 at a concrete already-authenticated environment. -/
theorem claim_C4_witness :
    (∀ r ∈ (_get_streams c4env ⟨some "alice", some "pw"⟩ ⟨some "tf1", none, none⟩
        "https://www.tf1.fr/tf1/direct").1, isLoginPost r = false)
    ∧ ∃ rest, (_get_streams c4env ⟨some "alice", some "pw"⟩ ⟨some "tf1", none, none⟩
        "https://www.tf1.fr/tf1/direct").1
      = Request.sessionGet session_url "https://www.tf1.fr/tf1/direct"
        :: Request.tokenPost _GIGYA_TOKEN_URL (.str "uid0") (.str "sig") 17 consent_ids
             "https://www.tf1.fr/tf1/direct" :: rest :=
  claim_C4_skip_login c4env ⟨some "alice", some "pw"⟩ ⟨some "tf1", none, none⟩
    "https://www.tf1.fr/tf1/direct"
    (.obj [("userSignature", .str "sig"), ("UID", .str "uid0"), ("timestamp", .num 17)])
    (.str "sig") (.str "uid0") (.num 17) 17
    (by rfl) (by rfl) (by rfl) (by rfl) (by rfl) (by rfl) (by rfl)

/-! ## Claim C10 -/

/-- When `auth_check` rejects the session response with an exception, `login`
propagates it, having issued only the session GET. -/
theorem login_abort (env : Env) (opts : PluginOptions) (selfUrl : String)
    (st : PluginState) (ptrt_url : String) (e : PyErr)
    (ha : auth_check env selfUrl st env.sessionResp = ([], .error e)) :
    login env opts selfUrl st ptrt_url
      = ([Request.sessionGet session_url ptrt_url], .error e) := by
  simp [login, ha]

/-- Claim C10: if the session-bootstrap GET returns HTTP 200 but its body is
not JSON or lacks one of the assertion fields, the resolution aborts with an
exception from the authentication check (a JSON or key error) and the
credential login POST is never issued. -/
theorem claim_C10_parse_abort (env : Env) (opts : PluginOptions) (m : MatchResult)
    (url : String) (h : truthy opts.username = true)
    (h200 : env.sessionResp.status_code = 200)
    (hbad : env.sessionResp.jsonBody = none
      ∨ ∃ body, env.sessionResp.jsonBody = some body
          ∧ (jlookup body "userSignature" = none
             ∨ jlookup body "UID" = none
             ∨ jlookup body "timestamp" = none)) :
    (∃ e, (_get_streams env opts m url).2 = .error e
        ∧ (e = .jsonError ∨ ∃ k, e = .keyError k))
    ∧ ∀ r ∈ (_get_streams env opts m url).1, isLoginPost r = false := by
  obtain ⟨e, ha, he⟩ := auth_check_abort env url initState env.sessionResp h200 hbad
  have hl := login_abort env opts url initState url e ha
  simp only [_get_streams, h, Bool.true_eq_false, if_false, hl]
  exact ⟨⟨e, rfl, he⟩, by simp [isLoginPost]⟩

/-- Witness for C10: a 200 session response with a non-JSON body. -/
def c10env : Env :=
  { sessionResp := ⟨200, none, ""⟩, loginResp := ⟨200, none, ""⟩,
    tokenResp := ⟨200, none, ""⟩, mediaResp := ⟨200, none, ""⟩ }

/-- Witness for C10 at a concrete environment. -/
theorem claim_C10_witness :
    (∃ e, (_get_streams c10env ⟨some "alice", some "pw"⟩ ⟨some "tf1", none, none⟩
        "https://www.tf1.fr/tf1/direct").2 = .error e
        ∧ (e = .jsonError ∨ ∃ k, e = .keyError k))
    ∧ ∀ r ∈ (_get_streams c10env ⟨some "alice", some "pw"⟩ ⟨some "tf1", none, none⟩
        "https://www.tf1.fr/tf1/direct").1, isLoginPost r = false :=
  claim_C10_parse_abort c10env ⟨some "alice", some "pw"⟩ ⟨some "tf1", none, none⟩
    "https://www.tf1.fr/tf1/direct" (by rfl) (by rfl) (Or.inl rfl)

/-! ## Claim C5 -/

/-- When neither the session response nor the login response is HTTP 200,
`login` issues exactly the session GET and the login POST and returns `False`
with the state untouched. -/
theorem login_rejected (env : Env) (opts : PluginOptions) (selfUrl : String)
    (st : PluginState) (ptrt_url : String)
    (hs : env.sessionResp.status_code ≠ 200) (hl : env.loginResp.status_code ≠ 200) :
    login env opts selfUrl st ptrt_url
      = ([Request.sessionGet session_url ptrt_url,
          Request.loginPost auth_url (urlQuery env.sessionResp.finalUrl)
            opts.username opts.password gigya_api_key],
         .ok (false, st)) := by
  have h1 := auth_check_not200 env selfUrl st env.sessionResp hs
  have h2 := auth_check_not200 env selfUrl st env.loginResp hl
  simp [login, h1, h2]

/-- Claim C5: if the login POST returns any HTTP status other than 200 (the
session bootstrap having not short-circuited), the flow ends with the
"check your username and password" report and the media-info GET is never
issued. -/
theorem claim_C5_login_rejected (env : Env) (opts : PluginOptions) (m : MatchResult)
    (url : String) (h : truthy opts.username = true)
    (hs : env.sessionResp.status_code ≠ 200)
    (hl : env.loginResp.status_code ≠ 200) :
    (_get_streams env opts m url).2 = .ok (.noStreams authFailedMsg)
    ∧ (_get_streams env opts m url).1
        = [Request.sessionGet session_url url,
           Request.loginPost auth_url (urlQuery env.sessionResp.finalUrl)
             opts.username opts.password gigya_api_key]
    ∧ ∀ r ∈ (_get_streams env opts m url).1, isMediaGet r = false := by
  have hlog := login_rejected env opts url initState url hs hl
  simp [_get_streams, h, hlog, isMediaGet]

/-- Witness env for C5: a 403 session response and a 403 login response. -/
def c5env : Env :=
  { sessionResp := ⟨403, none, "https://www.tf1.fr/session?got=redirect"⟩,
    loginResp := ⟨403, none, ""⟩,
    tokenResp := ⟨200, none, ""⟩, mediaResp := ⟨200, none, ""⟩ }

/-- Witness for C5 at a concrete environment. -/
theorem claim_C5_witness :
    (_get_streams c5env ⟨some "alice", some "pw"⟩ ⟨some "tf1", none, none⟩
        "https://www.tf1.fr/tf1/direct").2 = .ok (.noStreams authFailedMsg)
    ∧ (_get_streams c5env ⟨some "alice", some "pw"⟩ ⟨some "tf1", none, none⟩
        "https://www.tf1.fr/tf1/direct").1
      = [Request.sessionGet session_url "https://www.tf1.fr/tf1/direct",
         Request.loginPost auth_url (urlQuery c5env.sessionResp.finalUrl)
           (some "alice") (some "pw") gigya_api_key]
    ∧ ∀ r ∈ (_get_streams c5env ⟨some "alice", some "pw"⟩ ⟨some "tf1", none, none⟩
        "https://www.tf1.fr/tf1/direct").1, isMediaGet r = false :=
  claim_C5_login_rejected c5env ⟨some "alice", some "pw"⟩ ⟨some "tf1", none, none⟩
    "https://www.tf1.fr/tf1/direct" (by rfl) (by decide) (by decide)

/-! ## Claim C6 -/

/-- Claim C6: if the username or the password option is absent, the resolution
reports missing credentials and issues no HTTP request at all (the trace is
empty).  The hypothesis `hreq` is the option-framework invariant modelled from
the spec and the `pluginargument` declarations at tf1.py lines 35-47
(`requires=["password"]`, password `prompt`): a set username guarantees a set
password, so the source's username-only check covers both absences. -/
theorem claim_C6_missing_credentials (env : Env) (opts : PluginOptions)
    (m : MatchResult) (url : String)
    (hmiss : truthy opts.username = false ∨ truthy opts.password = false)
    (hreq : truthy opts.username = true → truthy opts.password = true) :
    _get_streams env opts m url = ([], .ok (.noStreams missingCredentialsMsg)) := by
  have hu : truthy opts.username = false := by
    rcases hmiss with hm | hm
    · exact hm
    · cases hb : truthy opts.username with
      | false => rfl
      | true => rw [hreq hb] at hm; cases hm
  simp [_get_streams, hu]

/-- Witness for C6 with both options absent. -/
theorem claim_C6_witness :
    _get_streams c2env ⟨none, none⟩ ⟨some "tf1", none, none⟩ "https://www.tf1.fr/tf1/direct"
      = ([], .ok (.noStreams missingCredentialsMsg)) :=
  claim_C6_missing_credentials c2env ⟨none, none⟩ ⟨some "tf1", none, none⟩
    "https://www.tf1.fr/tf1/direct" (Or.inl rfl) (fun h => h)

/-! ## Claim C7 -/

/-- On a session response with a parseable assertion, `auth_check` runs the
token exchange, and a token body failing the schema is a hard schema error. -/
theorem auth_check_schema_error (env : Env) (selfUrl : String) (st : PluginState)
    (res : HttpResponse) (body sig uid tsJ : JsonVal) (ts : Int) (tb : JsonVal)
    (h200 : res.status_code = 200) (hb : res.jsonBody = some body)
    (hsig : jlookup body "userSignature" = some sig)
    (huid : jlookup body "UID" = some uid)
    (hts : jlookup body "timestamp" = some tsJ)
    (hint : pyInt tsJ = some ts)
    (htb : env.tokenResp.jsonBody = some tb)
    (hv : validateTokenSchema tb = none) :
    auth_check env selfUrl st res
      = ([Request.tokenPost _GIGYA_TOKEN_URL uid sig ts consent_ids selfUrl],
         .error .schemaError) := by
  simp [auth_check, h200, hb, hsig, huid, hts, hint, htb, hv]

/-- Claim C7: the token-exchange schema requires all four fields; a token
response body missing `ttl` fails validation (no defaulting) and the whole
resolution ends in the hard schema error. -/
theorem claim_C7_ttl_required (env : Env) (opts : PluginOptions) (m : MatchResult)
    (url : String) (body sig uid tsJ : JsonVal) (ts : Int) (tb : JsonVal)
    (h : truthy opts.username = true)
    (h200 : env.sessionResp.status_code = 200)
    (hb : env.sessionResp.jsonBody = some body)
    (hsig : jlookup body "userSignature" = some sig)
    (huid : jlookup body "UID" = some uid)
    (hts : jlookup body "timestamp" = some tsJ)
    (hint : pyInt tsJ = some ts)
    (htb : env.tokenResp.jsonBody = some tb)
    (httl : jlookup tb "ttl" = none) :
    validateTokenSchema tb = none
    ∧ (_get_streams env opts m url).2 = .error .schemaError := by
  have hv : validateTokenSchema tb = none := by
    unfold validateTokenSchema
    split <;> simp_all
  have ha := auth_check_schema_error env url initState env.sessionResp body sig uid tsJ ts tb
    h200 hb hsig huid hts hint htb hv
  have hl : login env opts url initState url
      = ([Request.sessionGet session_url url,
          Request.tokenPost _GIGYA_TOKEN_URL uid sig ts consent_ids url],
         .error .schemaError) := by
    simp [login, ha]
  refine ⟨hv, ?_⟩
  simp [_get_streams, h, hl]

/-- Witness env for C7: valid session assertion, token body missing `ttl`. -/
def c7env : Env :=
  { sessionResp := ⟨200,
      some (.obj [("userSignature", .str "sig"), ("UID", .str "uid0"), ("timestamp", .num 17)]),
      ""⟩,
    loginResp := ⟨500, none, ""⟩,
    tokenResp := ⟨200,
      some (.obj [("token", .str "tok"), ("refresh_token", .str "ref"), ("type", .str "Bearer")]),
      ""⟩,
    mediaResp := ⟨200, none, ""⟩ }

/-- Witness for C7 at a concrete environment. -/
theorem claim_C7_witness :
    validateTokenSchema
        (.obj [("token", .str "tok"), ("refresh_token", .str "ref"), ("type", .str "Bearer")])
      = none
    ∧ (_get_streams c7env ⟨some "alice", some "pw"⟩ ⟨some "tf1", none, none⟩
        "https://www.tf1.fr/tf1/direct").2 = .error .schemaError :=
  claim_C7_ttl_required c7env ⟨some "alice", some "pw"⟩ ⟨some "tf1", none, none⟩
    "https://www.tf1.fr/tf1/direct"
    (.obj [("userSignature", .str "sig"), ("UID", .str "uid0"), ("timestamp", .num 17)])
    (.str "sig") (.str "uid0") (.num 17) 17
    (.obj [("token", .str "tok"), ("refresh_token", .str "ref"), ("type", .str "Bearer")])
    (by rfl) (by rfl) (by rfl) (by rfl) (by rfl) (by rfl) (by rfl) (by rfl) (by rfl)

/-! ## Claim C3 -/

/-- The success branch of the delivery union rejects any delivery whose `code`
is an integer other than 200. -/
theorem deliverySuccess_code_ne (d : JsonVal) (c : Int)
    (hcode : jlookup d "code" = some (.num c)) (hc : c ≠ 200) :
    deliverySuccess d = none := by
  unfold deliverySuccess
  split <;> simp_all

/-- The failure branch of the delivery union extracts `(code, error)`. -/
theorem deliveryFailure_eval (d : JsonVal) (c : Int) (msg : String)
    (hcode : jlookup d "code" = some (.num c))
    (herr : jlookup d "error" = some (.str msg)) :
    deliveryFailure d = some (c, msg) := by
  simp [deliveryFailure, hcode, herr]

/-- A well-formed failure-shaped delivery with a non-200 code validates to the
failure pair. -/
theorem validateApiBody_failure (mb d : JsonVal) (c : Int) (msg : String)
    (hdel : jlookup mb "delivery" = some d)
    (hcode : jlookup d "code" = some (.num c))
    (herr : jlookup d "error" = some (.str msg)) (hc : c ≠ 200) :
    validateApiBody mb = some (c, msg) := by
  simp [validateApiBody, hdel, deliverySuccess_code_ne d c hcode hc,
    deliveryFailure_eval d c msg hcode herr]

/-- A successful authentication run of `login`: session 200 with parseable
assertion and a schema-valid token response. -/
theorem login_success (env : Env) (opts : PluginOptions) (selfUrl : String)
    (st : PluginState) (ptrt_url : String) (body sig uid tsJ : JsonVal) (ts : Int)
    (tb : JsonVal) (tok : TokenResponse)
    (h200 : env.sessionResp.status_code = 200)
    (hb : env.sessionResp.jsonBody = some body)
    (hsig : jlookup body "userSignature" = some sig)
    (huid : jlookup body "UID" = some uid)
    (hts : jlookup body "timestamp" = some tsJ)
    (hint : pyInt tsJ = some ts)
    (htb : env.tokenResp.jsonBody = some tb)
    (htok : validateTokenSchema tb = some tok) :
    login env opts selfUrl st ptrt_url
      = ([Request.sessionGet session_url ptrt_url,
          Request.tokenPost _GIGYA_TOKEN_URL uid sig ts consent_ids selfUrl],
         .ok (true,
           { user_signature := sig, user_uid := uid,
             user_timestamp := .num ts, user_token := tok.token })) := by
  have ha := auth_check_success env selfUrl st env.sessionResp body sig uid tsJ ts tb tok
    h200 hb hsig huid hts hint htb htok
  simp [login, ha]

/-- Claim C3 (amended): for every media-info response whose delivery is the
well-formed failure shape with a non-200 code, the resolver reports the
provider's error message and produces no streams — nothing is handed to the
HLS manifest parser.  (The amendment restricts the failure shape to codes
other than 200: a failure-shaped delivery carrying `code = 200` is instead
passed to the manifest parser, see the counterexample.) -/
theorem claim_C3_failure_reported (env : Env) (opts : PluginOptions) (m : MatchResult)
    (url : String) (body sig uid tsJ : JsonVal) (ts : Int) (tb : JsonVal)
    (tok : TokenResponse) (mb d : JsonVal) (c : Int) (msg chan cid : String)
    (h : truthy opts.username = true)
    (h200 : env.sessionResp.status_code = 200)
    (hb : env.sessionResp.jsonBody = some body)
    (hsig : jlookup body "userSignature" = some sig)
    (huid : jlookup body "UID" = some uid)
    (hts : jlookup body "timestamp" = some tsJ)
    (hint : pyInt tsJ = some ts)
    (htb : env.tokenResp.jsonBody = some tb)
    (htok : validateTokenSchema tb = some tok)
    (hch : _get_channel m = .ok (chan, cid))
    (hmb : env.mediaResp.jsonBody = some mb)
    (hdel : jlookup mb "delivery" = some d)
    (hcode : jlookup d "code" = some (.num c))
    (herr : jlookup d "error" = some (.str msg))
    (hc : c ≠ 200) :
    (_get_streams env opts m url).2 = .ok (.noStreams msg)
    ∧ ∀ s, (_get_streams env opts m url).2 ≠ .ok (.streams s) := by
  have hl := login_success env opts url initState url body sig uid tsJ ts tb tok
    h200 hb hsig huid hts hint htb htok
  have hapi := validateApiBody_failure mb d c msg hdel hcode herr hc
  have hcall : _api_call env cid
      { user_signature := sig, user_uid := uid,
        user_timestamp := .num ts, user_token := tok.token }
      = ([Request.mediaGet (_URL_API cid) "MYTF1" "5015000"
           ("Bearer " ++ tok.token) IPHONE], .ok (c, msg)) := by
    simp [_api_call, hmb, hapi]
  constructor
  · simp [_get_streams, h, hl, hch, hcall, hc]
  · intro s
    simp [_get_streams, h, hl, hch, hcall, hc]

/-- Environment for the C3 witness: authenticated session, delivery failure
`{code: 403, error: "geo-blocked"}`. -/
def c3env : Env :=
  { sessionResp := ⟨200,
      some (.obj [("userSignature", .str "sig"), ("UID", .str "uid0"), ("timestamp", .num 17)]),
      ""⟩,
    loginResp := ⟨500, none, ""⟩,
    tokenResp := ⟨200,
      some (.obj [("token", .str "tok"), ("refresh_token", .str "ref"),
                  ("ttl", .num 3600), ("type", .str "Bearer")]), ""⟩,
    mediaResp := ⟨200,
      some (.obj [("delivery", .obj [("code", .num 403), ("error", .str "geo-blocked")])]),
      ""⟩ }

/-- Witness for the amended C3: a 403 failure delivery is reported verbatim and
yields no streams. -/
theorem claim_C3_witness :
    (_get_streams c3env ⟨some "alice", some "pw"⟩ ⟨some "tf1", none, none⟩
        "https://www.tf1.fr/tf1/direct").2 = .ok (.noStreams "geo-blocked")
    ∧ ∀ s, (_get_streams c3env ⟨some "alice", some "pw"⟩ ⟨some "tf1", none, none⟩
        "https://www.tf1.fr/tf1/direct").2 ≠ .ok (.streams s) :=
  claim_C3_failure_reported c3env ⟨some "alice", some "pw"⟩ ⟨some "tf1", none, none⟩
    "https://www.tf1.fr/tf1/direct"
    (.obj [("userSignature", .str "sig"), ("UID", .str "uid0"), ("timestamp", .num 17)])
    (.str "sig") (.str "uid0") (.num 17) 17
    (.obj [("token", .str "tok"), ("refresh_token", .str "ref"),
           ("ttl", .num 3600), ("type", .str "Bearer")])
    { token := "tok", refresh_token := "ref", ttl := 3600, type := "Bearer" }
    (.obj [("delivery", .obj [("code", .num 403), ("error", .str "geo-blocked")])])
    (.obj [("code", .num 403), ("error", .str "geo-blocked")])
    403 "geo-blocked" "tf1" "L_TF1"
    (by rfl) (by rfl) (by rfl) (by rfl) (by rfl) (by rfl) (by rfl) (by rfl) (by rfl)
    (by rfl) (by rfl) (by rfl) (by rfl) (by rfl) (by decide)

/-- Environment refuting C3 as stated: the delivery is the well-formed failure
shape `{code: 200, error: "geo-blocked"}` (its `code` is an integer), yet the
resolver does not report it — it hands the error text to the manifest parser. -/
def c3badEnv : Env :=
  { sessionResp := ⟨200,
      some (.obj [("userSignature", .str "sig"), ("UID", .str "uid0"), ("timestamp", .num 17)]),
      ""⟩,
    loginResp := ⟨500, none, ""⟩,
    tokenResp := ⟨200,
      some (.obj [("token", .str "tok"), ("refresh_token", .str "ref"),
                  ("ttl", .num 3600), ("type", .str "Bearer")]), ""⟩,
    mediaResp := ⟨200,
      some (.obj [("delivery", .obj [("code", .num 200), ("error", .str "geo-blocked")])]),
      ""⟩ }

/-- Counterexample to C3 as stated: on the failure-shaped delivery
`{code: 200, error: "geo-blocked"}` the resolver hands the provider's error
string to the HLS manifest parser instead of reporting it with no streams. -/
theorem claim_C3_counterexample :
    (_get_streams c3badEnv ⟨some "alice", some "pw"⟩ ⟨some "tf1", none, none⟩
        "https://www.tf1.fr/tf1/direct").2 = .ok (.streams "geo-blocked")
    ∧ (_get_streams c3badEnv ⟨some "alice", some "pw"⟩ ⟨some "tf1", none, none⟩
        "https://www.tf1.fr/tf1/direct").2 ≠ .ok (.noStreams "geo-blocked") :=
  ⟨rfl, fun hcontra => Outcome.noConfusion (Except.ok.inj hcontra)⟩

/-! ## Claim C8 -/

/-- Environment for C8: a 200 session response with a parseable assertion, so
the token-exchange POST is issued. -/
def c8env : Env :=
  { sessionResp := ⟨200,
      some (.obj [("userSignature", .str "sig"), ("UID", .str "uid0"), ("timestamp", .num 17)]),
      ""⟩,
    loginResp := ⟨500, none, ""⟩,
    tokenResp := ⟨200, none, ""⟩,
    mediaResp := ⟨200, none, ""⟩ }

/-- Claim C8 (code bug): the `consentIds` value the token-exchange POST carries
is NOT the plain list of consent-identifier strings — the trailing comma at
tf1.py line 127 makes `consent_ids` a one-element tuple wrapping that list,
and that tuple is exactly what the issued token POST carries. -/
theorem claim_C8_consent_ids_tuple :
    consent_ids = PyVal.tuple [PyVal.list (consentIdStrings.map PyVal.str)]
    ∧ consent_ids ≠ PyVal.list (consentIdStrings.map PyVal.str)
    ∧ (login c8env ⟨some "alice", some "pw"⟩ "https://www.tf1.fr/tf1/direct" initState
        "https://www.tf1.fr/tf1/direct").1
      = [Request.sessionGet session_url "https://www.tf1.fr/tf1/direct",
         Request.tokenPost _GIGYA_TOKEN_URL (.str "uid0") (.str "sig") 17 consent_ids
           "https://www.tf1.fr/tf1/direct"] :=
  ⟨rfl, fun hcontra => PyVal.noConfusion hcontra, rfl⟩
